import Mathlib

/-!
Verification of the filename-extraction engine and reconciliation workflow of
`sonarr-autoimport-go` (anime workflow variant, `main.go`).

The Go source is shallowly embedded: strings are Lean `String`s (operated on as
`List Char`), Go `int` is `Int`, regular expressions are an explicit AST
(`Regex`) interpreted by a fueled backtracking matcher implementing Go's
(RE2, Perl-compatible) leftmost-first match semantics, and the remote Sonarr
HTTP API is abstracted by an environment record holding the decoded responses
together with an explicit log of issued requests.
-/

namespace SonarrAutoImport

/-! ## Go string primitives -/

/-- `unicode.IsSpace` as used by `strings.TrimSpace` (ASCII whitespace plus
NEL and NBSP; the remaining Unicode `Zs` code points never occur in the
strings analysed here). -/
def isSpaceGo (c : Char) : Bool :=
  c = ' ' || c = '\t' || c = '\n' || c = '\x0b' || c = '\x0c' || c = '\r' ||
  c = '\u0085' || c = ' '

/-- The RE2 character class `\s`, i.e. `[\t\n\f\r ]`. -/
def isSpaceRE (c : Char) : Bool :=
  c = '\t' || c = '\n' || c = '\x0c' || c = '\r' || c = ' '

/-- The RE2 character class `\d`, i.e. `[0-9]`. -/
def isDigitRE (c : Char) : Bool :=
  '0' ≤ c && c ≤ '9'

/-- ASCII lowercasing of one character (`strings.ToLower`; the titles and
quality keywords involved are ASCII). -/
def lowerChar (c : Char) : Char :=
  if 'A' ≤ c && c ≤ 'Z' then Char.ofNat (c.toNat + 32) else c

/-- `strings.ToLower`. -/
def toLowerGo (s : String) : String :=
  ⟨s.data.map lowerChar⟩

/-- `strings.TrimSpace`. -/
def trimSpaceGo (s : String) : String :=
  ⟨((s.data.dropWhile isSpaceGo).reverse.dropWhile isSpaceGo).reverse⟩

/-- `strings.TrimSuffix`. -/
def trimSuffixGo (s suffix : String) : String :=
  if suffix.data <:+ s.data then ⟨s.data.take (s.data.length - suffix.data.length)⟩ else s

/-- Helper for `pathExt`: walk the reversed character list looking for the
last dot of the final path element. -/
def pathExtAux : List Char → List Char → List Char
  | [], _ => []
  | c :: rest, acc =>
    if c = '/' then []
    else if c = '.' then c :: acc
    else pathExtAux rest (c :: acc)

/-- `filepath.Ext`: the suffix beginning at the final dot in the final path
element, empty if there is no dot. -/
def pathExt (s : String) : String :=
  ⟨pathExtAux s.data.reverse []⟩

/-- `filepath.Base`: the last element of the path, after trailing slashes are
removed; `"."` for the empty path, `"/"` for an all-slash path. -/
def baseName (s : String) : String :=
  if s.data = [] then "."
  else
    let t := (s.data.reverse.dropWhile (· = '/')).reverse
    let b := (t.reverse.takeWhile (· ≠ '/')).reverse
    if b = [] then "/" else ⟨b⟩

/-- Whether `pat` occurs as a prefix of some suffix of the second list. -/
def containsAux (pat : List Char) : List Char → Bool
  | [] => pat.isEmpty
  | c :: rest => pat.isPrefixOf (c :: rest) || containsAux pat rest

/-- `strings.Contains`. -/
def containsGo (s substr : String) : Bool :=
  containsAux substr.data s.data

/-- Digit accumulation for `atoi`. -/
def atoiDigits : List Char → Nat → Option Nat
  | [], acc => some acc
  | c :: rest, acc =>
    if isDigitRE c then atoiDigits rest (acc * 10 + (c.toNat - '0'.toNat))
    else none

/-- `strconv.Atoi`: optional sign, one or more decimal digits, 64-bit range
check (`strconv.ErrRange`). -/
def atoi (s : String) : Option Int :=
  let (neg, digits) :=
    match s.data with
    | '+' :: rest => (false, rest)
    | '-' :: rest => (true, rest)
    | l => (false, l)
  match digits with
  | [] => none
  | _ =>
    match atoiDigits digits 0 with
    | none => none
    | some n =>
      if neg then
        if n ≤ 9223372036854775808 then some (-(n : Int)) else none
      else
        if n ≤ 9223372036854775807 then some (n : Int) else none

/-! ## Regular expressions

A small AST covering the constructs appearing in the program's patterns,
interpreted with Go's leftmost-first (Perl-compatible) backtracking order:
alternation prefers the left branch, greedy repetition prefers one more
iteration, lazy repetition prefers stopping.  `regexp.Compile` is modelled by
storing already-compiled `Regex` values (an `Option Regex` where `none`
stands for a pattern that fails to compile). -/

inductive Regex where
  /-- Empty regex (matches the empty string). -/
  | eps : Regex
  /-- A literal character. -/
  | chr : Char → Regex
  /-- A character class, as a predicate. -/
  | cls : (Char → Bool) → Regex
  /-- `.`: any character except newline. -/
  | dot : Regex
  /-- Concatenation. -/
  | cat : Regex → Regex → Regex
  /-- Alternation, left branch preferred. -/
  | alt : Regex → Regex → Regex
  /-- Greedy Kleene star. -/
  | starG : Regex → Regex
  /-- Lazy Kleene star. -/
  | starL : Regex → Regex
  /-- Capturing group with 1-based index. -/
  | group : Nat → Regex → Regex
  /-- `^`: start of text (no multiline flag anywhere in the program). -/
  | bol : Regex
  /-- `$`: end of text. -/
  | eol : Regex

namespace Regex

/-- Greedy `+`. -/
def plusG (r : Regex) : Regex := .cat r (.starG r)

/-- Lazy `+?`. -/
def plusL (r : Regex) : Regex := .cat r (.starL r)

/-- Greedy `?`. -/
def optG (r : Regex) : Regex := .alt r .eps

/-- A literal string. -/
def str (s : String) : Regex :=
  s.data.foldr (fun c acc => .cat (.chr c) acc) .eps

/-- Structural size, used to bound the matcher's fuel. -/
def sizeR : Regex → Nat
  | .eps => 1
  | .chr _ => 1
  | .cls _ => 1
  | .dot => 1
  | .cat a b => sizeR a + sizeR b + 1
  | .alt a b => sizeR a + sizeR b + 1
  | .starG a => sizeR a + 1
  | .starL a => sizeR a + 1
  | .group _ a => sizeR a + 1
  | .bol => 1
  | .eol => 1

/-- Largest capture-group index occurring in the regex (Go's `NumSubexp`). -/
def maxGroup : Regex → Nat
  | .cat a b => max (maxGroup a) (maxGroup b)
  | .alt a b => max (maxGroup a) (maxGroup b)
  | .starG a => maxGroup a
  | .starL a => maxGroup a
  | .group n a => max n (maxGroup a)
  | _ => 0

end Regex

/-- Capture environment: `(group, start, end)` triples, most recent first. -/
abbrev Caps := List (Nat × Nat × Nat)

/-- The backtracking matcher.  `i` is the absolute position in the input,
`rest` the remaining characters, `k` the success continuation.  Fuel bounds
the recursion depth; the wrappers below always supply enough for the patterns
and inputs at hand.  Empty star iterations are cut off (as in RE2), which the
program's patterns never rely on. -/
def matchAux : Nat → Regex → Nat → List Char → Caps →
    (Nat → List Char → Caps → Option (Nat × Caps)) → Option (Nat × Caps)
  | 0, _, _, _, _, _ => none
  | Nat.succ fuel, r, i, rest, caps, k =>
    match r with
    | .eps => k i rest caps
    | .chr c =>
      match rest with
      | [] => none
      | d :: rest₂ => if d = c then k (i + 1) rest₂ caps else none
    | .cls p =>
      match rest with
      | [] => none
      | d :: rest₂ => if p d then k (i + 1) rest₂ caps else none
    | .dot =>
      match rest with
      | [] => none
      | d :: rest₂ => if d = '\n' then none else k (i + 1) rest₂ caps
    | .cat a b =>
      matchAux fuel a i rest caps fun j rest₂ caps₂ =>
        matchAux fuel b j rest₂ caps₂ k
    | .alt a b =>
      match matchAux fuel a i rest caps k with
      | some res => some res
      | none => matchAux fuel b i rest caps k
    | .starG a =>
      match matchAux fuel a i rest caps (fun j rest₂ caps₂ =>
          if j = i then none else matchAux fuel (.starG a) j rest₂ caps₂ k) with
      | some res => some res
      | none => k i rest caps
    | .starL a =>
      match k i rest caps with
      | some res => some res
      | none =>
        matchAux fuel a i rest caps fun j rest₂ caps₂ =>
          if j = i then none else matchAux fuel (.starL a) j rest₂ caps₂ k
    | .group n a =>
      matchAux fuel a i rest caps fun j rest₂ caps₂ =>
        k j rest₂ ((n, i, j) :: caps₂)
    | .bol => if i = 0 then k i rest caps else none
    | .eol =>
      match rest with
      | [] => k i rest caps
      | _ => none

/-- Fuel sufficient for the matcher on a given regex and input length. -/
def matchFuel (r : Regex) (len : Nat) : Nat :=
  (r.sizeR + 2) * (len + 2) * 4 + 64

/-- Attempt a match starting exactly at position `i`; returns the end position
and captures of the backtracking-first match. -/
def matchAt (r : Regex) (inp : List Char) (i : Nat) : Option (Nat × Caps) :=
  matchAux (matchFuel r inp.length) r i (inp.drop i) [] fun j _ caps => some (j, caps)

/-- Leftmost match with start position at least `from0`: Go tries successive
start positions and keeps the first that succeeds.  Returns
`(start, end, captures)`. -/
def findFromAux (r : Regex) (inp : List Char) : Nat → Nat → Option (Nat × Nat × Caps)
  | 0, _ => none
  | Nat.succ fuel, i =>
    match matchAt r inp i with
    | some (j, caps) => some (i, j, caps)
    | none =>
      if i < inp.length then findFromAux r inp fuel (i + 1) else none

/-- Leftmost match of `r` in `inp` starting at or after `from0`. -/
def findFrom (r : Regex) (inp : List Char) (from0 : Nat) : Option (Nat × Nat × Caps) :=
  findFromAux r inp (inp.length + 1 - from0) from0

/-- Substring `[a, b)` of a character list. -/
def sliceStr (inp : List Char) (a b : Nat) : String :=
  ⟨(inp.drop a).take (b - a)⟩

/-- The capture slice reported for group `n` (most recent binding wins;
a group that did not participate reports the empty string, as Go does). -/
def capSlice (inp : List Char) (caps : Caps) (n : Nat) : String :=
  match caps.find? (fun t => t.1 = n) with
  | some (_, a, b) => sliceStr inp a b
  | none => ""

/-- `regexp.FindStringSubmatch`: `[]` when there is no match, otherwise the
whole match followed by one entry per capture group. -/
def findStringSubmatch (r : Regex) (s : String) : List String :=
  match findFrom r s.data 0 with
  | none => []
  | some (a, b, caps) =>
    sliceStr s.data a b ::
      (List.range r.maxGroup).map fun n => capSlice s.data caps (n + 1)

/-- One step of `regexp.ReplaceAllString`'s scan, following Go's
`replaceAll` loop: `lastMatchEnd` tracks the end of the previous match (an
empty match immediately after another match is not replaced again) and the
scan always advances at least one character.  The replacement is inserted
literally (none of the program's replacement strings contains `$`). -/
def replaceAllAux (r : Regex) (inp : List Char) (repl : String) :
    Nat → Nat → Nat → List Char
  | 0, _, lastMatchEnd => inp.drop lastMatchEnd
  | Nat.succ fuel, searchPos, lastMatchEnd =>
    if searchPos ≤ inp.length then
      match findFrom r inp searchPos with
      | none => inp.drop lastMatchEnd
      | some (a, b, _) =>
        let before := (inp.drop lastMatchEnd).take (a - lastMatchEnd)
        let emitted := if lastMatchEnd < b || a = 0 then before ++ repl.data else before
        let nextPos := if searchPos + 1 > b then searchPos + 1 else b
        emitted ++ replaceAllAux r inp repl fuel nextPos b
    else inp.drop lastMatchEnd

/-- `regexp.ReplaceAllString`. -/
def replaceAllString (r : Regex) (src repl : String) : String :=
  ⟨replaceAllAux r src.data repl (src.data.length + 2) 0 0⟩

/-! ## Configuration (`Config`, `SonarrConfig`, `ParsingConfig`, `Transform`,
`AnimePattern`)

Pattern fields hold the result of `regexp.Compile` on the configured pattern
string: `some r` for a valid pattern, `none` for one that fails to compile
(compiling the same string always gives the same result, so pre-compiling is
faithful to the Go code, which compiles at each use). -/

/-- A search/replace rule (`Transform`). -/
structure Transform where
  search : Option Regex
  replace : String

/-- A structured anime pattern (`AnimePattern`); the group fields are Go
`int`s, non-negative in every configuration considered. -/
structure AnimePattern where
  pattern : Option Regex
  titleGroup : Nat
  seasonGroup : Nat
  episodeGroup : Nat

/-- `ParsingConfig`.  `qualityPatterns` are plain substrings (the code uses
`strings.Contains` on them, not regex matching). -/
structure ParsingConfig where
  animePatterns : List AnimePattern
  seasonPatterns : List (Option Regex)
  episodePatterns : List (Option Regex)
  qualityPatterns : List String
  groupPatterns : List (Option Regex)

/-- `SonarrConfig` (the URL/API-key/downloads fields feed only the HTTP and
filesystem layers, which are abstracted). -/
structure SonarrConfig where
  url : String
  apiKey : String
  downloadsFolder : String
  qualityProfile : Int
  languageProfile : Int
  rootFolder : String

/-- `Config`. -/
structure Config where
  sonarr : SonarrConfig
  parsing : ParsingConfig
  transforms : List Transform

/-! ### The default configuration (`createDefaultConfig`) -/

/-- The regex class `[\s_]`. -/
def clsSpaceUnd : Regex := .cls fun c => isSpaceRE c || c = '_'

/-- The regex class `\d`. -/
def clsDigit : Regex := .cls isDigitRE

/-- The regex class `\s`. -/
def clsSpace : Regex := .cls isSpaceRE

/-- Default anime pattern 1: `^(.+?)[\s_]+(\d+)(?:nd|rd|th)?[\s_]+Season[\s_]*\[(\d+)\]`. -/
def animeRegex1 : Regex :=
  .cat .bol (.cat (.group 1 (Regex.plusL .dot)) (.cat (Regex.plusG clsSpaceUnd)
    (.cat (.group 2 (Regex.plusG clsDigit))
      (.cat (Regex.optG (.alt (Regex.str "nd") (.alt (Regex.str "rd") (Regex.str "th"))))
        (.cat (Regex.plusG clsSpaceUnd) (.cat (Regex.str "Season")
          (.cat (.starG clsSpaceUnd) (.cat (.chr '[')
            (.cat (.group 3 (Regex.plusG clsDigit)) (.chr ']'))))))))))

/-- Default anime pattern 2: `^(.+?)[\s_]+Season[\s_]+(\d+)[\s_]*\[(\d+)\]`. -/
def animeRegex2 : Regex :=
  .cat .bol (.cat (.group 1 (Regex.plusL .dot)) (.cat (Regex.plusG clsSpaceUnd)
    (.cat (Regex.str "Season") (.cat (Regex.plusG clsSpaceUnd)
      (.cat (.group 2 (Regex.plusG clsDigit)) (.cat (.starG clsSpaceUnd)
        (.cat (.chr '[') (.cat (.group 3 (Regex.plusG clsDigit)) (.chr ']')))))))))

/-- Default anime pattern 3: `^(.+?)[\s_]*\[(\d+)\]`. -/
def animeRegex3 : Regex :=
  .cat .bol (.cat (.group 1 (Regex.plusL .dot)) (.cat (.starG clsSpaceUnd)
    (.cat (.chr '[') (.cat (.group 2 (Regex.plusG clsDigit)) (.chr ']')))))

/-- Default anime pattern 4: `^(.+?)[\s_]+S(\d+)E(\d+)`. -/
def animeRegex4 : Regex :=
  .cat .bol (.cat (.group 1 (Regex.plusL .dot)) (.cat (Regex.plusG clsSpaceUnd)
    (.cat (.chr 'S') (.cat (.group 2 (Regex.plusG clsDigit))
      (.cat (.chr 'E') (.group 3 (Regex.plusG clsDigit)))))))

/-- Default season pattern `(\d+)(?:nd|rd|th)?\s+Season` (never consulted by
the parsing code). -/
def seasonRegex1 : Regex :=
  .cat (.group 1 (Regex.plusG clsDigit))
    (.cat (Regex.optG (.alt (Regex.str "nd") (.alt (Regex.str "rd") (Regex.str "th"))))
      (.cat (Regex.plusG clsSpace) (Regex.str "Season")))

/-- Default season pattern `Season\s+(\d+)`. -/
def seasonRegex2 : Regex :=
  .cat (Regex.str "Season") (.cat (Regex.plusG clsSpace) (.group 1 (Regex.plusG clsDigit)))

/-- Default season pattern `S(\d+)`. -/
def seasonRegex3 : Regex :=
  .cat (.chr 'S') (.group 1 (Regex.plusG clsDigit))

/-- Default episode pattern `\[(\d+)\]`. -/
def episodeRegex1 : Regex :=
  .cat (.chr '[') (.cat (.group 1 (Regex.plusG clsDigit)) (.chr ']'))

/-- Default episode pattern `E(\d+)`. -/
def episodeRegex2 : Regex :=
  .cat (.chr 'E') (.group 1 (Regex.plusG clsDigit))

/-- Default episode pattern `Episode\s+(\d+)`. -/
def episodeRegex3 : Regex :=
  .cat (Regex.str "Episode") (.cat (Regex.plusG clsSpace) (.group 1 (Regex.plusG clsDigit)))

/-- Default episode pattern `Ep\s*(\d+)`. -/
def episodeRegex4 : Regex :=
  .cat (Regex.str "Ep") (.cat (.starG clsSpace) (.group 1 (Regex.plusG clsDigit)))

/-- Default group pattern `\[([^\]]+)\]$`. -/
def groupRegex1 : Regex :=
  .cat (.chr '[') (.cat (.group 1 (Regex.plusG (.cls fun c => c != ']')))
    (.cat (.chr ']') .eol))

/-- Default group pattern `\(([^)]+)\)$`. -/
def groupRegex2 : Regex :=
  .cat (.chr '(') (.cat (.group 1 (Regex.plusG (.cls fun c => c != ')')))
    (.cat (.chr ')') .eol))

/-- Default transform regex `_`. -/
def transformRegex1 : Regex := .chr '_'

/-- Default transform regex `\.`. -/
def transformRegex2 : Regex := .chr '.'

/-- Default transform regex `\s+`. -/
def transformRegex3 : Regex := Regex.plusG clsSpace

/-- Default transform regex `^\s+|\s+$`. -/
def transformRegex4 : Regex :=
  .alt (.cat .bol (Regex.plusG clsSpace)) (.cat (Regex.plusG clsSpace) .eol)

/-- The default configuration written by `createDefaultConfig`. -/
def defaultConfig : Config :=
  { sonarr :=
      { url := "http://sonarr:8989"
        apiKey := ""
        downloadsFolder := "/downloads"
        qualityProfile := 1
        languageProfile := 1
        rootFolder := "/tv" }
    parsing :=
      { animePatterns :=
          [ { pattern := some animeRegex1, titleGroup := 1, seasonGroup := 2, episodeGroup := 3 }
          , { pattern := some animeRegex2, titleGroup := 1, seasonGroup := 2, episodeGroup := 3 }
          , { pattern := some animeRegex3, titleGroup := 1, seasonGroup := 0, episodeGroup := 2 }
          , { pattern := some animeRegex4, titleGroup := 1, seasonGroup := 2, episodeGroup := 3 } ]
        seasonPatterns := [some seasonRegex1, some seasonRegex2, some seasonRegex3]
        episodePatterns := [some episodeRegex1, some episodeRegex2, some episodeRegex3, some episodeRegex4]
        qualityPatterns := ["1080p", "720p", "480p", "WEBRip", "BluRay", "DVDRip"]
        groupPatterns := [some groupRegex1, some groupRegex2] }
    transforms :=
      [ { search := some transformRegex1, replace := " " }
      , { search := some transformRegex2, replace := " " }
      , { search := some transformRegex3, replace := " " }
      , { search := some transformRegex4, replace := "" } ] }

/-! ## Filename extraction (`parseAnimeFilename` and helpers) -/

/-- The extractor's output record (`ParsedAnime`). -/
structure ParsedAnime where
  originalFilename : String
  filePath : String
  title : String
  season : Int
  episode : Int
  quality : String
  group : String
  year : Int
deriving DecidableEq

/-- `applyTransforms`: each rule in order; a rule whose pattern fails to
compile is logged and skipped; otherwise all matches are replaced.  (The Go
code additionally compares `newResult` with `result` purely for logging.) -/
def applyTransforms : List Transform → String → String
  | [], result => result
  | t :: rest, result =>
    match t.search with
    | none => applyTransforms rest result
    | some regex => applyTransforms rest (replaceAllString regex result t.replace)

/-- The `for _, pattern := range config.Parsing.AnimePatterns` loop of
`parseAnimeFilename`: on the first pattern that compiles and whose submatch
list is longer than its title group, set title (trimmed) and, for positive
in-range group indices that parse, season and episode, then break. -/
def tryAnimePatterns (cleanName : String) : List AnimePattern → ParsedAnime → ParsedAnime
  | [], anime => anime
  | p :: rest, anime =>
    match p.pattern with
    | none => tryAnimePatterns cleanName rest anime
    | some regex =>
      let ms := findStringSubmatch regex cleanName
      if p.titleGroup < ms.length then
        let anime := { anime with title := trimSpaceGo (ms.getD p.titleGroup "") }
        let anime :=
          if 0 < p.seasonGroup ∧ p.seasonGroup < ms.length then
            match atoi (ms.getD p.seasonGroup "") with
            | some season => { anime with season := season }
            | none => anime
          else anime
        let anime :=
          if 0 < p.episodeGroup ∧ p.episodeGroup < ms.length then
            match atoi (ms.getD p.episodeGroup "") with
            | some episode => { anime with episode := episode }
            | none => anime
          else anime
        anime
      else tryAnimePatterns cleanName rest anime

/-- The hard-coded episode-indicator strip patterns of `extractTitle`:
`\s*\[\d+\].*$`, `\s*[Ee]p?\s*\d+.*$`, `\s*[Ee]pisode\s*\d+.*$`,
`\s*S\d+E\d+.*$` (all compile, so the `err != nil` branch is dead). -/
def titleStripRegexes : List Regex :=
  [ .cat (.starG clsSpace) (.cat (.chr '[') (.cat (Regex.plusG clsDigit)
      (.cat (.chr ']') (.cat (.starG .dot) .eol))))
  , .cat (.starG clsSpace) (.cat (.cls fun c => c = 'E' || c = 'e')
      (.cat (Regex.optG (.chr 'p')) (.cat (.starG clsSpace)
        (.cat (Regex.plusG clsDigit) (.cat (.starG .dot) .eol)))))
  , .cat (.starG clsSpace) (.cat (.cls fun c => c = 'E' || c = 'e')
      (.cat (Regex.str "pisode") (.cat (.starG clsSpace)
        (.cat (Regex.plusG clsDigit) (.cat (.starG .dot) .eol)))))
  , .cat (.starG clsSpace) (.cat (.chr 'S') (.cat (Regex.plusG clsDigit)
      (.cat (.chr 'E') (.cat (Regex.plusG clsDigit) (.cat (.starG .dot) .eol))))) ]

/-- `extractTitle`: strip the episode indicators from the name, then trim. -/
def extractTitle (filename : String) : String :=
  trimSpaceGo (titleStripRegexes.foldl (fun title regex => replaceAllString regex title "") filename)

/-- `extractEpisode`: first configured episode pattern that compiles, matches
with at least one capture, and whose first capture parses, wins; `0` if none
does. -/
def extractEpisode (cfg : Config) (filename : String) : Int :=
  go cfg.parsing.episodePatterns
where
  go : List (Option Regex) → Int
    | [] => 0
    | none :: rest => go rest
    | some regex :: rest =>
      let ms := findStringSubmatch regex filename
      if 2 ≤ ms.length then
        match atoi (ms.getD 1 "") with
        | some episode => episode
        | none => go rest
      else go rest

/-- `extractQuality`: first quality keyword contained (case-insensitively) in
the raw filename, else `"Unknown"`. -/
def extractQuality (cfg : Config) (filename : String) : String :=
  go cfg.parsing.qualityPatterns
where
  go : List String → String
    | [] => "Unknown"
    | p :: rest =>
      if containsGo (toLowerGo filename) (toLowerGo p) then p else go rest

/-- `extractGroup`: first group pattern that compiles and matches the raw
filename with at least one capture yields its first capture, else
`"Unknown"`. -/
def extractGroup (cfg : Config) (filename : String) : String :=
  go cfg.parsing.groupPatterns
where
  go : List (Option Regex) → String
    | [] => "Unknown"
    | none :: rest => go rest
    | some regex :: rest =>
      let ms := findStringSubmatch regex filename
      if 2 ≤ ms.length then ms.getD 1 "" else go rest

/-- Everything `parseAnimeFilename` computes before its final validation:
strip the extension, normalise via the transform pipeline, run the structured
pattern loop, fall back to `extractTitle`/`extractEpisode` when the title is
still empty, and fill quality and group from the raw filename. -/
def parseAnimeRecord (cfg : Config) (filename filePath : String) : ParsedAnime :=
  let anime : ParsedAnime :=
    { originalFilename := filename, filePath := filePath, title := "", season := 1
      episode := 0, quality := "", group := "", year := 0 }
  let nameWithoutExt := trimSuffixGo filename (pathExt filename)
  let cleanName := applyTransforms cfg.transforms nameWithoutExt
  let anime := tryAnimePatterns cleanName cfg.parsing.animePatterns anime
  let anime :=
    if anime.title = "" then
      { anime with title := extractTitle cleanName, episode := extractEpisode cfg cleanName }
    else anime
  { anime with quality := extractQuality cfg filename, group := extractGroup cfg filename }

/-- `parseAnimeFilename`: the record, unless title is empty or episode is 0,
in which case `could not parse title or episode from filename`. -/
def parseAnimeFilename (cfg : Config) (filename filePath : String) : Option ParsedAnime :=
  let anime := parseAnimeRecord cfg filename filePath
  if anime.title = "" ∨ anime.episode = 0 then none else some anime

/-! ## Sonarr API entities -/

/-- `Image`. -/
structure Image where
  coverType : String
  url : String
deriving DecidableEq

/-- `Season`. -/
structure Season where
  seasonNumber : Int
  monitored : Bool
deriving DecidableEq

/-- `AddOptions`. -/
structure AddOptions where
  ignoreEpisodesWithFiles : Bool
  ignoreEpisodesWithoutFiles : Bool
  searchForMissingEpisodes : Bool
deriving DecidableEq

/-- `Series` (all fields of the Go struct; unset fields hold Go zero
values). -/
structure Series where
  id : Int := 0
  title : String := ""
  sortTitle : String := ""
  status : String := ""
  overview : String := ""
  network : String := ""
  airTime : String := ""
  images : List Image := []
  seasons : List Season := []
  year : Int := 0
  path : String := ""
  qualityProfileId : Int := 0
  languageProfileId : Int := 0
  seasonFolder : Bool := false
  monitored : Bool := false
  useSceneNumbering : Bool := false
  runtime : Int := 0
  tvdbId : Int := 0
  tvRageId : Int := 0
  tvMazeId : Int := 0
  firstAired : String := ""
  seriesType : String := ""
  cleanTitle : String := ""
  imdbId : String := ""
  titleSlug : String := ""
  rootFolderPath : String := ""
  genres : List String := []
  tags : List Int := []
  added : String := ""
  addOptions : AddOptions := ⟨false, false, false⟩
deriving DecidableEq

/-- `SeriesLookup`. -/
structure SeriesLookup where
  title : String := ""
  sortTitle : String := ""
  status : String := ""
  overview : String := ""
  network : String := ""
  images : List Image := []
  seasons : List Season := []
  year : Int := 0
  tvdbId : Int := 0
  titleSlug : String := ""
  genres : List String := []
  firstAired : String := ""
deriving DecidableEq

/-- `Episode`. -/
structure Episode where
  id : Int := 0
  seriesId : Int := 0
  episodeNumber : Int := 0
  seasonNumber : Int := 0
  title : String := ""
  airDate : String := ""
  overview : String := ""
  hasFile : Bool := false
  monitored : Bool := false
deriving DecidableEq

/-- `Quality`. -/
structure Quality where
  id : Int
  name : String
deriving DecidableEq

/-- `Language`. -/
structure Language where
  id : Int
  name : String
deriving DecidableEq

/-- `ManualImportFile`. -/
structure ManualImportFile where
  path : String
  seriesId : Int
  seasonNumber : Int
  episodes : List Int
  quality : Quality
  language : Language
deriving DecidableEq

/-- `ManualImportRequest`. -/
structure ManualImportRequest where
  files : List ManualImportFile
deriving DecidableEq

/-- One HTTP request issued against the Sonarr API, as observed at the
client boundary. -/
inductive ApiRequest where
  /-- `GET /api/v3/series`. -/
  | getSeries : ApiRequest
  /-- `GET /api/v3/series/lookup?term=<term>`. -/
  | getSeriesLookup : String → ApiRequest
  /-- `POST /api/v3/series` with the given body. -/
  | postSeries : Series → ApiRequest
  /-- `GET /api/v3/episode?seriesId=<id>`. -/
  | getEpisodes : Int → ApiRequest
  /-- `PUT /api/v3/manualimport` with the given body. -/
  | putManualImport : ManualImportRequest → ApiRequest
deriving DecidableEq

/-- Whether a request is the series-creation `POST /series` call. -/
def ApiRequest.isPostSeries : ApiRequest → Bool
  | .postSeries _ => true
  | _ => false

/-- The remote catalog, abstracted to the decoded responses each endpoint
would return (transport and JSON-decoding failures of the Go code are outside
this model; the environment always answers). -/
structure SonarrEnv where
  /-- Decoded body of `GET /series`. -/
  seriesList : List Series
  /-- Decoded body of `GET /series/lookup`. -/
  lookupResults : List SeriesLookup
  /-- Status of `POST /series`. -/
  addStatus : Int
  /-- Decoded body of `POST /series`. -/
  addResponse : Series
  /-- Decoded body of `GET /episode?seriesId=`. -/
  episodes : List Episode
  /-- Status of `PUT /manualimport`. -/
  importStatus : Int

/-! ## Reconciliation workflow -/

/-- `filepath.Join` on two elements: empty elements are dropped, the rest
joined with `/`.  (Go additionally runs `filepath.Clean`; every path joined
by this program is already clean.) -/
def joinPath (a b : String) : String :=
  if a = "" then b else if b = "" then a else a ++ "/" ++ b

/-- The title-matching test of `findExistingSeries`'s scan. -/
def seriesTitleMatches (cleanTitle : String) (s : Series) : Bool :=
  toLowerGo s.title == cleanTitle || toLowerGo s.sortTitle == cleanTitle

/-- The `for _, s := range series` scan of `findExistingSeries`. -/
def findSeriesScan (cleanTitle : String) : List Series → Option Int
  | [] => none
  | s :: rest =>
    if seriesTitleMatches cleanTitle s then some s.id else findSeriesScan cleanTitle rest

/-- `findExistingSeries`: fetch `GET /series` and scan for the first series
whose title or sort-title (lowercased) equals the lowercased trimmed parsed
title; `none` models the `series not found` error. -/
def findExistingSeries (env : SonarrEnv) (title : String) : Option Int × List ApiRequest :=
  let cleanTitle := toLowerGo (trimSpaceGo title)
  (findSeriesScan cleanTitle env.seriesList, [ApiRequest.getSeries])

/-- `searchSeries`: `GET /series/lookup?term=<title>`. -/
def searchSeries (env : SonarrEnv) (title : String) : List SeriesLookup × List ApiRequest :=
  (env.lookupResults, [ApiRequest.getSeriesLookup title])

/-- The `Series` payload built by `addSeries` from a lookup candidate and the
configured defaults (remaining fields keep their Go zero values). -/
def seriesFromLookup (cfg : SonarrConfig) (l : SeriesLookup) : Series :=
  { title := l.title
    sortTitle := l.sortTitle
    status := l.status
    overview := l.overview
    network := l.network
    images := l.images
    seasons := l.seasons
    year := l.year
    path := joinPath cfg.rootFolder l.titleSlug
    qualityProfileId := cfg.qualityProfile
    languageProfileId := cfg.languageProfile
    seasonFolder := true
    monitored := true
    useSceneNumbering := false
    tvdbId := l.tvdbId
    titleSlug := l.titleSlug
    rootFolderPath := cfg.rootFolder
    genres := l.genres
    tags := []
    addOptions :=
      { ignoreEpisodesWithFiles := false
        ignoreEpisodesWithoutFiles := false
        searchForMissingEpisodes := false } }

/-- `addSeries`: `POST /series`; a non-2xx status is the
`failed to add series` error, otherwise the created series' ID is returned. -/
def addSeries (cfg : Config) (env : SonarrEnv) (l : SeriesLookup) : Option Int × List ApiRequest :=
  let body := seriesFromLookup cfg.sonarr l
  if 200 ≤ env.addStatus ∧ env.addStatus < 300 then
    (some env.addResponse.id, [ApiRequest.postSeries body])
  else
    (none, [ApiRequest.postSeries body])

/-- `findOrCreateSeries`: adopt an existing series when the lookup scan found
one with a positive ID; otherwise search by title — zero candidates is the
`no series found` error — and create the first candidate. -/
def findOrCreateSeries (cfg : Config) (env : SonarrEnv) (anime : ParsedAnime) :
    Option Int × List ApiRequest :=
  let (found, reqs) := findExistingSeries env anime.title
  let createFlow : Option Int × List ApiRequest :=
    let (options, reqs₂) := searchSeries env anime.title
    match options with
    | [] => (none, reqs ++ reqs₂)
    | selected :: _ =>
      let (res, reqs₃) := addSeries cfg env selected
      (res, reqs ++ reqs₂ ++ reqs₃)
  match found with
  | some seriesId => if 0 < seriesId then (some seriesId, reqs) else createFlow
  | none => createFlow

/-- The `for _, episode := range episodes` scan of `findEpisode`. -/
def findEpisodeScan (seasonNumber episodeNumber : Int) : List Episode → Option Int
  | [] => none
  | e :: rest =>
    if e.seasonNumber = seasonNumber ∧ e.episodeNumber = episodeNumber then some e.id
    else findEpisodeScan seasonNumber episodeNumber rest

/-- `findEpisode`: fetch the series' episode list and scan for the entry with
exactly the parsed season and episode numbers; `none` models the
`episode not found` error. -/
def findEpisode (env : SonarrEnv) (seriesId seasonNumber episodeNumber : Int) :
    Option Int × List ApiRequest :=
  (findEpisodeScan seasonNumber episodeNumber env.episodes, [ApiRequest.getEpisodes seriesId])

/-- `manualImport`: `PUT /manualimport` with the fixed placeholder quality and
language; a non-2xx status is the `manual import failed` error. -/
def manualImport (env : SonarrEnv) (anime : ParsedAnime) (seriesId episodeId : Int) :
    Bool × List ApiRequest :=
  let importFile : ManualImportFile :=
    { path := anime.filePath
      seriesId := seriesId
      seasonNumber := anime.season
      episodes := [episodeId]
      quality := { id := 1, name := "HDTV-1080p" }
      language := { id := 1, name := "English" } }
  let request : ManualImportRequest := { files := [importFile] }
  (decide (200 ≤ env.importStatus ∧ env.importStatus < 300), [ApiRequest.putManualImport request])

/-- `processAnimeFile`: parse the base name; a parse failure fails the file
with no remote traffic; in dry-run mode stop right after parsing, issuing no
requests; otherwise run series resolution, episode resolution and import in
order, aborting on the first failing step.  Returns whether the file was
processed successfully together with the requests issued. -/
def processAnimeFile (cfg : Config) (dryRun : Bool) (env : SonarrEnv) (filePath : String) :
    Bool × List ApiRequest :=
  let fileName := baseName filePath
  match parseAnimeFilename cfg fileName filePath with
  | none => (false, [])
  | some anime =>
    if dryRun then (true, [])
    else
      match findOrCreateSeries cfg env anime with
      | (none, reqs) => (false, reqs)
      | (some seriesId, reqs) =>
        match findEpisode env seriesId anime.season anime.episode with
        | (none, reqs₂) => (false, reqs ++ reqs₂)
        | (some episodeId, reqs₂) =>
          let (ok, reqs₃) := manualImport env anime seriesId episodeId
          (ok, reqs ++ reqs₂ ++ reqs₃)

/-- The batch loop of `processAnimeFiles`: every file is attempted; a failure
is logged and the loop continues; the aggregate success count is reported.
Returns the success count and the list of attempted files (in order).  The
environment is a function of the file so that successive files may observe
different remote states. -/
def processAnimeFiles (cfg : Config) (dryRun : Bool) (envOf : String → SonarrEnv) :
    List String → Nat × List String
  | [] => (0, [])
  | file :: rest =>
    let ok := (processAnimeFile cfg dryRun (envOf file) file).1
    let (processed, attempted) := processAnimeFiles cfg dryRun envOf rest
    (if ok then processed + 1 else processed, file :: attempted)

/-! ## Supporting lemmas -/

/-- The transform pipeline splits at list concatenation: the rules of `ys`
run on the output of the rules of `xs`. -/
theorem applyTransforms_append (xs ys : List Transform) (input : String) :
    applyTransforms (xs ++ ys) input = applyTransforms ys (applyTransforms xs input) := by
  induction xs generalizing input with
  | nil => rfl
  | cons t rest ih =>
    cases h : t.search <;> simp [applyTransforms, h, ih]

/-- Whether a structured pattern "fires" on the normalised name: its pattern
compiles and the submatch list is longer than its title-group index (the
condition under which the pattern loop assigns and breaks). -/
def firesB (p : AnimePattern) (cleanName : String) : Bool :=
  match p.pattern with
  | none => false
  | some r => decide (p.titleGroup < (findStringSubmatch r cleanName).length)

/-- Patterns that do not fire are skipped by the pattern loop. -/
theorem tryAnimePatterns_skip (cleanName : String) (pre rest : List AnimePattern)
    (anime : ParsedAnime) (h : ∀ q ∈ pre, firesB q cleanName = false) :
    tryAnimePatterns cleanName (pre ++ rest) anime = tryAnimePatterns cleanName rest anime := by
  induction pre with
  | nil => rfl
  | cons q qs ih =>
    have hq := h q (by simp)
    have hqs : ∀ p ∈ qs, firesB p cleanName = false := fun p hp => h p (by simp [hp])
    cases hr : q.pattern with
    | none => simpa [tryAnimePatterns, hr] using ih hqs
    | some r =>
      have : ¬ q.titleGroup < (findStringSubmatch r cleanName).length := by
        simpa [firesB, hr] using hq
      simpa [tryAnimePatterns, hr, this] using ih hqs

/-- A firing pattern assigns title, season and episode from its captures and
stops the loop. -/
theorem tryAnimePatterns_fire (cleanName : String) (p : AnimePattern)
    (rest : List AnimePattern) (anime : ParsedAnime) (regex : Regex)
    (hregex : p.pattern = some regex)
    (hfire : p.titleGroup < (findStringSubmatch regex cleanName).length) :
    tryAnimePatterns cleanName (p :: rest) anime =
      { anime with
        title := trimSpaceGo ((findStringSubmatch regex cleanName).getD p.titleGroup "")
        season :=
          if 0 < p.seasonGroup ∧ p.seasonGroup < (findStringSubmatch regex cleanName).length then
            (atoi ((findStringSubmatch regex cleanName).getD p.seasonGroup "")).getD anime.season
          else anime.season
        episode :=
          if 0 < p.episodeGroup ∧ p.episodeGroup < (findStringSubmatch regex cleanName).length then
            (atoi ((findStringSubmatch regex cleanName).getD p.episodeGroup "")).getD anime.episode
          else anime.episode } := by
  obtain ⟨pp, tg, sg, eg⟩ := p
  simp only at hregex
  subst hregex
  simp only [tryAnimePatterns] at hfire ⊢
  rw [if_pos hfire]
  by_cases hs : 0 < sg ∧ sg < (findStringSubmatch regex cleanName).length <;>
    by_cases he : 0 < eg ∧ eg < (findStringSubmatch regex cleanName).length <;>
      simp only [hs, he, if_true, if_false, if_pos, if_neg, not_false_iff] <;>
        cases hsa : atoi ((findStringSubmatch regex cleanName).getD sg "") <;>
          cases hea : atoi ((findStringSubmatch regex cleanName).getD eg "") <;>
            simp [hsa, hea]

/-- The episode scan is `List.find?` on the exact season/episode test. -/
theorem findEpisodeScan_eq_find (seasonNumber episodeNumber : Int) (episodes : List Episode) :
    findEpisodeScan seasonNumber episodeNumber episodes =
      (episodes.find? fun e =>
        e.seasonNumber == seasonNumber && e.episodeNumber == episodeNumber).map Episode.id := by
  induction episodes with
  | nil => rfl
  | cons e rest ih =>
    by_cases h : e.seasonNumber = seasonNumber ∧ e.episodeNumber = episodeNumber
    · have hb : (e.seasonNumber == seasonNumber && e.episodeNumber == episodeNumber) = true := by
        simp [h.1, h.2]
      simp [findEpisodeScan, List.find?, h, hb]
    · have hb : (e.seasonNumber == seasonNumber && e.episodeNumber == episodeNumber) = false := by
        rcases not_and_or.mp h with h₁ | h₁ <;> simp [h₁]
      simp [findEpisodeScan, List.find?, h, hb, ih]

/-- The series scan is `List.find?` on the title test. -/
theorem findSeriesScan_eq_find (cleanTitle : String) (series : List Series) :
    findSeriesScan cleanTitle series =
      (series.find? (seriesTitleMatches cleanTitle)).map Series.id := by
  induction series with
  | nil => rfl
  | cons s rest ih =>
    by_cases h : seriesTitleMatches cleanTitle s = true
    · simp [findSeriesScan, List.find?, h]
    · have hb : seriesTitleMatches cleanTitle s = false := by simpa using h
      simp [findSeriesScan, List.find?, hb, ih]

/-- The batch loop counts exactly the successfully processed files and
attempts every file. -/
theorem processAnimeFiles_eq (cfg : Config) (dryRun : Bool) (envOf : String → SonarrEnv)
    (files : List String) :
    processAnimeFiles cfg dryRun envOf files =
      ((files.filter fun f => (processAnimeFile cfg dryRun (envOf f) f).1).length, files) := by
  induction files with
  | nil => rfl
  | cons f rest ih =>
    by_cases h : (processAnimeFile cfg dryRun (envOf f) f).1 = true
    · simp [processAnimeFiles, ih, h, List.filter]
    · simp at h
      simp [processAnimeFiles, ih, h, List.filter]

/-- Splitting a list's length by a Boolean predicate. -/
theorem length_filter_add_length_filter_not {α : Type} (p : α → Bool) (l : List α) :
    (l.filter p).length + (l.filter fun x => !(p x)).length = l.length := by
  induction l with
  | nil => rfl
  | cons x rest ih =>
    by_cases h : p x = true
    · simp [List.filter, h, ← ih]; omega
    · simp at h
      simp [List.filter, h, ← ih]; omega


/-! ## Sample data for concrete instantiations -/

/-- An inert environment (no series, no lookup candidates, failing creation)
for scenarios whose remote side is never consulted. -/
def sampleEnv : SonarrEnv :=
  { seriesList := [], lookupResults := [], addStatus := 500, addResponse := {},
    episodes := [], importStatus := 500 }

/-- A lookup candidate as returned by `GET /series/lookup`. -/
def sampleLookup : SeriesLookup :=
  { title := "Naruto", sortTitle := "naruto", status := "ended", overview := "", network := "",
    images := [], seasons := [{ seasonNumber := 1, monitored := true }], year := 2002,
    tvdbId := 78857, titleSlug := "naruto", genres := ["Anime"], firstAired := "2002-10-03" }

/-- A parsed record with title `"Naruto"`. -/
def sampleAnime : ParsedAnime :=
  { originalFilename := "Naruto [01].mkv", filePath := "/downloads/Naruto [01].mkv",
    title := "Naruto", season := 1, episode := 1, quality := "Unknown", group := "Unknown",
    year := 0 }

/-- Environment with no matching series and one lookup candidate; creation
succeeds with ID 42. -/
def createEnv : SonarrEnv :=
  { seriesList := [], lookupResults := [sampleLookup], addStatus := 201,
    addResponse := { id := 42, title := "Naruto" }, episodes := [], importStatus := 200 }

/-- Environment already containing the series `"Naruto"` with ID 5. -/
def existingEnv : SonarrEnv :=
  { seriesList := [{ id := 5, title := "Naruto", sortTitle := "naruto" }],
    lookupResults := [sampleLookup], addStatus := 201,
    addResponse := { id := 42, title := "Naruto" }, episodes := [], importStatus := 200 }

/-- Environment whose matching series decodes with ID 0 (e.g. an `id` field
absent from the JSON body). -/
def zeroIdEnv : SonarrEnv :=
  { seriesList := [{ id := 0, title := "Naruto", sortTitle := "naruto" }],
    lookupResults := [sampleLookup], addStatus := 201,
    addResponse := { id := 42, title := "Naruto" }, episodes := [], importStatus := 200 }

/-- A two-file batch whose second file cannot be parsed. -/
def sampleFiles : List String := ["/downloads/A [01].mkv", "/downloads/bad.mkv"]

/-- Pattern `^(z*)a\[(\d+)\]`: matches `"a[5]"` capturing an empty title. -/
def emptyTitleRegex : Regex :=
  .cat .bol (.cat (.group 1 (.starG (.chr 'z')))
    (.cat (.chr 'a') (.cat (.chr '[') (.cat (.group 2 (Regex.plusG clsDigit)) (.chr ']')))))

/-- Pattern `^(a+)\[(\d+)\]`: matches `"a[5]"` capturing title `"a"`. -/
def nonEmptyTitleRegex : Regex :=
  .cat .bol (.cat (.group 1 (Regex.plusG (.chr 'a')))
    (.cat (.chr '[') (.cat (.group 2 (Regex.plusG clsDigit)) (.chr ']'))))

/-- A configuration whose first structured pattern captures an empty title on
`"a[5]"` while the second captures a non-empty one. -/
def emptyTitleConfig : Config :=
  { sonarr := defaultConfig.sonarr
    parsing :=
      { animePatterns :=
          [ { pattern := some emptyTitleRegex, titleGroup := 1, seasonGroup := 0, episodeGroup := 2 }
          , { pattern := some nonEmptyTitleRegex, titleGroup := 1, seasonGroup := 0, episodeGroup := 2 } ]
        seasonPatterns := []
        episodePatterns := []
        qualityPatterns := []
        groupPatterns := [] }
    transforms := [] }

/-- The default configuration with the structured patterns removed, so that
every file takes the fallback path. -/
def fallbackConfig : Config :=
  { defaultConfig with
    parsing := { defaultConfig.parsing with animePatterns := [] } }

/-! ## Claim theorems -/

/-- C1: for every configuration, filename and file path, `parseAnimeFilename`
returns an error exactly when the derived record's title is empty or its
episode is 0; in every other case it returns exactly the derived record (whose
title is then non-empty and episode non-zero) — this is the sole error
condition of extraction. -/
theorem parse_error_iff_empty_title_or_zero_episode (cfg : Config) (filename filePath : String) :
    (parseAnimeFilename cfg filename filePath = none ↔
      (parseAnimeRecord cfg filename filePath).title = "" ∨
      (parseAnimeRecord cfg filename filePath).episode = 0) ∧
    (parseAnimeFilename cfg filename filePath = none ∨
      (parseAnimeFilename cfg filename filePath = some (parseAnimeRecord cfg filename filePath) ∧
        (parseAnimeRecord cfg filename filePath).title ≠ "" ∧
        (parseAnimeRecord cfg filename filePath).episode ≠ 0)) := by
  unfold parseAnimeFilename
  by_cases h : (parseAnimeRecord cfg filename filePath).title = "" ∨
      (parseAnimeRecord cfg filename filePath).episode = 0
  · simp [h]
  · rcases not_or.mp h with ⟨h₁, h₂⟩
    simp [h, h₁, h₂]

/-- C7: episode resolution returns the ID of the first episode in list order
whose season and episode numbers both exactly equal the parsed values, and
fails (returns `none`, the `episode not found` error) exactly when no entry of
the list has both numbers equal; no partial or fuzzy matching occurs. -/
theorem findEpisode_exact_match (env : SonarrEnv) (seriesId seasonNumber episodeNumber : Int) :
    findEpisode env seriesId seasonNumber episodeNumber =
      ((env.episodes.find? fun e =>
          e.seasonNumber == seasonNumber && e.episodeNumber == episodeNumber).map Episode.id,
        [ApiRequest.getEpisodes seriesId]) ∧
    ((findEpisode env seriesId seasonNumber episodeNumber).1 = none ↔
      ∀ e ∈ env.episodes,
        ¬(e.seasonNumber = seasonNumber ∧ e.episodeNumber = episodeNumber)) := by
  have hscan := findEpisodeScan_eq_find seasonNumber episodeNumber env.episodes
  constructor
  · simp [findEpisode, hscan]
  · simp [findEpisode, hscan, List.find?_eq_none, Option.map_eq_none]

/-- C9: the transform pipeline is the left-to-right fold over the configured
rules: appending a rule to the configuration applies it last, to the output
of all earlier rules (so no rule ever sees the result of a later rule), a
valid rule contributing one `ReplaceAllString` pass (all non-overlapping
matches); and a rule whose pattern fails to compile — `search = none` — is
skipped without affecting the remaining rules. -/
theorem applyTransforms_fold_and_skip (rules pre post : List Transform) (t : Transform)
    (badReplace : String) (input : String) :
    (applyTransforms (rules ++ [t]) input =
      match t.search with
      | none => applyTransforms rules input
      | some regex => replaceAllString regex (applyTransforms rules input) t.replace) ∧
    (applyTransforms (pre ++ { search := none, replace := badReplace } :: post) input =
      applyTransforms (pre ++ post) input) := by
  constructor
  · rw [applyTransforms_append]
    cases h : t.search <;> simp [applyTransforms, h]
  · rw [applyTransforms_append, applyTransforms_append]
    rfl

/-- C10: in dry-run mode, a file whose extraction succeeds is reported as
successfully processed immediately after parsing, and no catalog HTTP request
of any kind (GET lookups included) is issued. -/
theorem dry_run_issues_no_requests (cfg : Config) (env : SonarrEnv) (filePath : String)
    (h : (parseAnimeFilename cfg (baseName filePath) filePath).isSome = true) :
    processAnimeFile cfg true env filePath = (true, []) := by
  unfold processAnimeFile
  cases hp : parseAnimeFilename cfg (baseName filePath) filePath with
  | none => rw [hp] at h; simp at h
  | some anime => simp [hp]

/-- Witness for C10: a concrete dry run on `"Show Name [12].mkv"`. -/
theorem dry_run_issues_no_requests_witness :
    (parseAnimeFilename defaultConfig (baseName "/downloads/Show Name [12].mkv")
        "/downloads/Show Name [12].mkv").isSome = true ∧
    processAnimeFile defaultConfig true sampleEnv "/downloads/Show Name [12].mkv" = (true, []) :=
  ⟨by decide, dry_run_issues_no_requests defaultConfig sampleEnv "/downloads/Show Name [12].mkv"
    (by decide)⟩

/-- C8: the batch loop attempts every one of the N discovered files (per-file
failures are caught at the loop and do not abort it), reports the aggregate
success count, and when exactly one file fails while the rest succeed the
reported count is N-1. -/
theorem batch_attempts_all_and_counts (cfg : Config) (dryRun : Bool)
    (envOf : String → SonarrEnv) (files : List String)
    (h : (files.filter fun f => !((processAnimeFile cfg dryRun (envOf f) f).1)).length = 1) :
    (processAnimeFiles cfg dryRun envOf files).2 = files ∧
    (processAnimeFiles cfg dryRun envOf files).1 =
      (files.filter fun f => (processAnimeFile cfg dryRun (envOf f) f).1).length ∧
    (processAnimeFiles cfg dryRun envOf files).1 = files.length - 1 := by
  have heq := processAnimeFiles_eq cfg dryRun envOf files
  have hsum := length_filter_add_length_filter_not
    (fun f => (processAnimeFile cfg dryRun (envOf f) f).1) files
  refine ⟨by rw [heq], by rw [heq], ?_⟩
  rw [heq]
  simp only at hsum h ⊢
  omega

/-- Witness for C8: a two-file dry-run batch where exactly the second file
fails extraction; both files are attempted and 1 of 2 is reported. -/
theorem batch_attempts_all_and_counts_witness :
    ((sampleFiles.filter fun f =>
        !((processAnimeFile defaultConfig true ((fun _ => sampleEnv) f) f).1)).length = 1) ∧
    (processAnimeFiles defaultConfig true (fun _ => sampleEnv) sampleFiles).2 = sampleFiles ∧
    (processAnimeFiles defaultConfig true (fun _ => sampleEnv) sampleFiles).1 =
      sampleFiles.length - 1 :=
  ⟨by decide,
    (batch_attempts_all_and_counts defaultConfig true (fun _ => sampleEnv) sampleFiles
      (by decide)).1,
    (batch_attempts_all_and_counts defaultConfig true (fun _ => sampleEnv) sampleFiles
      (by decide)).2.2⟩

/-- C5: when no series in the catalog list matches the parsed title
case-insensitively, series resolution searches by title; zero candidates is
the series-not-found failure; otherwise exactly one creation request is
issued, for the first candidate, whose body has path = configured root folder
joined with the candidate's title slug, the configured quality and language
profile IDs, monitored and season-folder both true; on a 2xx response the
returned ID is adopted and a non-2xx response fails the file. -/
theorem series_creation_path (cfg : Config) (env : SonarrEnv) (anime : ParsedAnime)
    (h : ∀ s ∈ env.seriesList,
      seriesTitleMatches (toLowerGo (trimSpaceGo anime.title)) s = false) :
    (env.lookupResults = [] →
      findOrCreateSeries cfg env anime =
        (none, [ApiRequest.getSeries, ApiRequest.getSeriesLookup anime.title])) ∧
    (∀ c rest, env.lookupResults = c :: rest →
      findOrCreateSeries cfg env anime =
        ((if 200 ≤ env.addStatus ∧ env.addStatus < 300 then some env.addResponse.id else none),
          [ApiRequest.getSeries, ApiRequest.getSeriesLookup anime.title,
            ApiRequest.postSeries (seriesFromLookup cfg.sonarr c)]) ∧
      (seriesFromLookup cfg.sonarr c).path = joinPath cfg.sonarr.rootFolder c.titleSlug ∧
      (seriesFromLookup cfg.sonarr c).qualityProfileId = cfg.sonarr.qualityProfile ∧
      (seriesFromLookup cfg.sonarr c).languageProfileId = cfg.sonarr.languageProfile ∧
      (seriesFromLookup cfg.sonarr c).monitored = true ∧
      (seriesFromLookup cfg.sonarr c).seasonFolder = true) := by
  have hnone : findSeriesScan (toLowerGo (trimSpaceGo anime.title)) env.seriesList = none := by
    rw [findSeriesScan_eq_find]
    have : env.seriesList.find?
        (seriesTitleMatches (toLowerGo (trimSpaceGo anime.title))) = none := by
      rw [List.find?_eq_none]
      intro s hs
      simp [h s hs]
    simp [this]
  constructor
  · intro hl
    simp [findOrCreateSeries, findExistingSeries, searchSeries, hnone, hl]
  · intro c rest hl
    refine ⟨?_, rfl, rfl, rfl, rfl, rfl⟩
    by_cases hst : 200 ≤ env.addStatus ∧ env.addStatus < 300 <;>
      simp [findOrCreateSeries, findExistingSeries, searchSeries, addSeries, hnone, hl, hst]

/-- Witness for C5: with an empty catalog and one lookup candidate, exactly
one creation request is issued for it and the created ID 42 is adopted. -/
theorem series_creation_path_witness :
    findOrCreateSeries defaultConfig createEnv sampleAnime =
      (some 42, [ApiRequest.getSeries, ApiRequest.getSeriesLookup "Naruto",
        ApiRequest.postSeries (seriesFromLookup defaultConfig.sonarr sampleLookup)]) ∧
    (seriesFromLookup defaultConfig.sonarr sampleLookup).path = "/tv/naruto" :=
  ⟨(((series_creation_path defaultConfig createEnv sampleAnime (by decide)).2
      sampleLookup [] rfl).1).trans (by decide), by decide⟩

/-- C6 (amended): when the catalog list contains a matching series — first
match in list order — and that series' ID is positive, resolution adopts the
ID directly and issues only the initial `GET /series`, in particular zero
`POST /series` creation calls.  (The positivity proviso is forced by the
`seriesID > 0` guard in `findOrCreateSeries`: a matching series whose decoded
ID is 0 falls through to the search-and-create path, see the
counterexample.) -/
theorem adopt_existing_series (cfg : Config) (env : SonarrEnv) (anime : ParsedAnime) (s : Series)
    (h : env.seriesList.find? (seriesTitleMatches (toLowerGo (trimSpaceGo anime.title))) = some s)
    (hpos : 0 < s.id) :
    findOrCreateSeries cfg env anime = (some s.id, [ApiRequest.getSeries]) ∧
    ((findOrCreateSeries cfg env anime).2.countP ApiRequest.isPostSeries) = 0 := by
  have hscan : findSeriesScan (toLowerGo (trimSpaceGo anime.title)) env.seriesList = some s.id := by
    rw [findSeriesScan_eq_find, h]
    rfl
  have h₁ : findOrCreateSeries cfg env anime = (some s.id, [ApiRequest.getSeries]) := by
    simp [findOrCreateSeries, findExistingSeries, hscan, hpos]
  refine ⟨h₁, ?_⟩
  rw [h₁]
  rfl

/-- C2 (amended): with the default configuration, extraction of
`"Show Title - 2nd Season [07] [Group].mkv"` matches the first structured
pattern and returns title `"Show Title -"` (the lazy title capture ends just
before the whitespace preceding the season digits, so the trailing
separator `-` survives `strings.TrimSpace`), season 2, episode 7, and group
`"Unknown"` (the group patterns are anchored at end of string but run on the
raw filename, whose `.mkv` extension defeats them); quality is likewise
`"Unknown"`. -/
theorem parse_show_title_2nd_season :
    parseAnimeFilename defaultConfig "Show Title - 2nd Season [07] [Group].mkv"
        "/downloads/Show Title - 2nd Season [07] [Group].mkv" =
      some
        { originalFilename := "Show Title - 2nd Season [07] [Group].mkv"
          filePath := "/downloads/Show Title - 2nd Season [07] [Group].mkv"
          title := "Show Title -"
          season := 2
          episode := 7
          quality := "Unknown"
          group := "Unknown"
          year := 0 } := by
  decide

/-- Counterexample for C2: on that filename the extractor does not return
title `"Show Title"` together with group `"Group"` — the actual record has
title `"Show Title -"` and group `"Unknown"`. -/
theorem parse_show_title_2nd_season_counterexample :
    ((parseAnimeFilename defaultConfig "Show Title - 2nd Season [07] [Group].mkv"
        "/downloads/Show Title - 2nd Season [07] [Group].mkv").map
      fun a => (a.title, a.season, a.episode, a.group)) ≠
      some ("Show Title", 2, 7, "Group") := by
  decide

/-- C3 (amended): extraction stops at the first configured structured pattern
whose compiled match succeeds with more submatch entries than its title-group
index — whether or not the captured title is empty — and, provided the
trimmed captured title is non-empty, the derived record's title, season and
episode equal that pattern's captures: title trimmed, season the parsed
season capture when the pattern has a season group (index > 0) in range and
it parses and 1 otherwise, episode likewise with default 0.  (When the
trimmed captured title is empty the loop still stops there, but the fallback
heuristics then overwrite title and episode, see the counterexample.) -/
theorem structured_first_pattern_wins (cfg : Config) (filename filePath cleanName : String)
    (pre post : List AnimePattern) (p : AnimePattern) (regex : Regex)
    (hclean : cleanName = applyTransforms cfg.transforms (trimSuffixGo filename (pathExt filename)))
    (hsplit : cfg.parsing.animePatterns = pre ++ p :: post)
    (hpre : ∀ q ∈ pre, firesB q cleanName = false)
    (hregex : p.pattern = some regex)
    (hfire : p.titleGroup < (findStringSubmatch regex cleanName).length)
    (htitle : trimSpaceGo ((findStringSubmatch regex cleanName).getD p.titleGroup "") ≠ "") :
    (parseAnimeRecord cfg filename filePath).title =
      trimSpaceGo ((findStringSubmatch regex cleanName).getD p.titleGroup "") ∧
    (parseAnimeRecord cfg filename filePath).season =
      (if 0 < p.seasonGroup ∧ p.seasonGroup < (findStringSubmatch regex cleanName).length then
        (atoi ((findStringSubmatch regex cleanName).getD p.seasonGroup "")).getD 1
      else 1) ∧
    (parseAnimeRecord cfg filename filePath).episode =
      (if 0 < p.episodeGroup ∧ p.episodeGroup < (findStringSubmatch regex cleanName).length then
        (atoi ((findStringSubmatch regex cleanName).getD p.episodeGroup "")).getD 0
      else 0) := by
  simp only [parseAnimeRecord, hsplit, ← hclean]
  rw [tryAnimePatterns_skip _ pre _ _ hpre,
    tryAnimePatterns_fire _ p post _ regex hregex hfire]
  rw [List.getD_eq_getElem?_getD] at htitle
  simp [htitle]

/-- Witness for C3: `"Show Name [12].mkv"` under the default configuration is
not matched by the first two structured patterns; the third
(`^(.+?)[\s_]*\[(\d+)\]`, no season group) fires and yields title
`"Show Name"`, season 1, episode 12. -/
theorem structured_first_pattern_wins_witness :
    (parseAnimeRecord defaultConfig "Show Name [12].mkv" "/downloads/Show Name [12].mkv").title =
      "Show Name" ∧
    (parseAnimeRecord defaultConfig "Show Name [12].mkv" "/downloads/Show Name [12].mkv").season =
      1 ∧
    (parseAnimeRecord defaultConfig "Show Name [12].mkv" "/downloads/Show Name [12].mkv").episode =
      12 := by
  have h := structured_first_pattern_wins defaultConfig "Show Name [12].mkv"
    "/downloads/Show Name [12].mkv" "Show Name [12]"
    [ { pattern := some animeRegex1, titleGroup := 1, seasonGroup := 2, episodeGroup := 3 }
    , { pattern := some animeRegex2, titleGroup := 1, seasonGroup := 2, episodeGroup := 3 } ]
    [ { pattern := some animeRegex4, titleGroup := 1, seasonGroup := 2, episodeGroup := 3 } ]
    { pattern := some animeRegex3, titleGroup := 1, seasonGroup := 0, episodeGroup := 2 }
    animeRegex3 (by decide) rfl (by decide) rfl (by decide) (by decide)
  refine ⟨h.1.trans (by decide), h.2.1.trans (by decide), h.2.2.trans (by decide)⟩

/-- Counterexample for C3: with `emptyTitleConfig`, the second structured
pattern matches `"a[5]"` with the non-empty captured title `"a"`, yet
extraction does not return a record with that pattern's captures — the loop
stopped at the first pattern (whose captured title is empty) and the file
fails extraction altogether. -/
theorem structured_first_pattern_wins_counterexample :
    findStringSubmatch nonEmptyTitleRegex "a[5]" = ["a[5]", "a", "5"] ∧
    applyTransforms emptyTitleConfig.transforms
        (trimSuffixGo "a[5].mkv" (pathExt "a[5].mkv")) = "a[5]" ∧
    parseAnimeFilename emptyTitleConfig "a[5].mkv" "/downloads/a[5].mkv" = none := by
  decide

/-- C4 (amended): when no structured pattern fires on the normalised name,
extraction takes the fallback path: the episode is produced by the ordered
episode-only patterns on the normalised name (the bracketed number when
`\[(\d+)\]` is the first episode pattern and matches), the season is always
the default 1, and the title is the normalised name with trailing bracket
segments and episode indicators stripped — but when that stripped title is
empty (or no episode pattern yields a non-zero number) extraction fails
instead of returning a record. -/
theorem fallback_path_extraction (cfg : Config) (filename filePath : String)
    (h : ∀ q ∈ cfg.parsing.animePatterns,
      firesB q (applyTransforms cfg.transforms (trimSuffixGo filename (pathExt filename))) = false) :
    parseAnimeFilename cfg filename filePath =
      (if extractTitle
            (applyTransforms cfg.transforms (trimSuffixGo filename (pathExt filename))) = "" ∨
          extractEpisode cfg
            (applyTransforms cfg.transforms (trimSuffixGo filename (pathExt filename))) = 0
       then none
       else some
        { originalFilename := filename
          filePath := filePath
          title := extractTitle
            (applyTransforms cfg.transforms (trimSuffixGo filename (pathExt filename)))
          season := 1
          episode := extractEpisode cfg
            (applyTransforms cfg.transforms (trimSuffixGo filename (pathExt filename)))
          quality := extractQuality cfg filename
          group := extractGroup cfg filename
          year := 0 }) := by
  have hskip := tryAnimePatterns_skip
    (applyTransforms cfg.transforms (trimSuffixGo filename (pathExt filename)))
    cfg.parsing.animePatterns []
    { originalFilename := filename, filePath := filePath, title := "", season := 1
      episode := 0, quality := "", group := "", year := 0 } h
  rw [List.append_nil] at hskip
  simp only [parseAnimeFilename, parseAnimeRecord, hskip, tryAnimePatterns]
  simp

/-- Witness for C4: with the structured patterns removed from the default
configuration, `"Show Name [12].mkv"` goes down the fallback path and yields
title `"Show Name"`, season 1, episode 12. -/
theorem fallback_path_extraction_witness :
    parseAnimeFilename fallbackConfig "Show Name [12].mkv" "/downloads/Show Name [12].mkv" =
      some
        { originalFilename := "Show Name [12].mkv"
          filePath := "/downloads/Show Name [12].mkv"
          title := "Show Name"
          season := 1
          episode := 12
          quality := "Unknown"
          group := "Unknown"
          year := 0 } :=
  (fallback_path_extraction fallbackConfig "Show Name [12].mkv" "/downloads/Show Name [12].mkv"
    (by decide)).trans (by decide)

/-- Counterexample for C4: `"[12] Show.mkv"` under the default configuration
matches no structured pattern and contains the bracketed number 12 (the
episode heuristic extracts it), yet extraction returns an error rather than a
record with a non-empty title — the bracket-stripping heuristic erases the
whole name. -/
theorem fallback_path_extraction_counterexample :
    (defaultConfig.parsing.animePatterns.all fun q => !(firesB q "[12] Show")) = true ∧
    applyTransforms defaultConfig.transforms
        (trimSuffixGo "[12] Show.mkv" (pathExt "[12] Show.mkv")) = "[12] Show" ∧
    extractEpisode defaultConfig "[12] Show" = 12 ∧
    parseAnimeFilename defaultConfig "[12] Show.mkv" "/downloads/[12] Show.mkv" = none := by
  decide

/-- Witness for C6: catalog containing `"Naruto"` with ID 5; it is adopted
with no creation call. -/
theorem adopt_existing_series_witness :
    existingEnv.seriesList.find?
        (seriesTitleMatches (toLowerGo (trimSpaceGo sampleAnime.title))) =
      some { id := 5, title := "Naruto", sortTitle := "naruto" } ∧
    findOrCreateSeries defaultConfig existingEnv sampleAnime = (some 5, [ApiRequest.getSeries]) :=
  ⟨by decide,
    ((adopt_existing_series defaultConfig existingEnv sampleAnime
      { id := 5, title := "Naruto", sortTitle := "naruto" } (by decide) (by decide)).1).trans
      (by decide)⟩

/-- Counterexample for C6: the catalog list contains a series matching
`"Naruto"` case-insensitively, yet (because its decoded ID is 0) series
resolution issues a `POST /series` creation request, contradicting the
claim that a matching series is adopted with no creation call. -/
theorem adopt_existing_series_counterexample :
    (zeroIdEnv.seriesList.any
        (seriesTitleMatches (toLowerGo (trimSpaceGo sampleAnime.title)))) = true ∧
    ((findOrCreateSeries defaultConfig zeroIdEnv sampleAnime).2.countP
        ApiRequest.isPostSeries) = 1 := by
  decide

end SonarrAutoImport
